import Mathlib

/-!
Shallow embedding of the ctx-generator catalog replication service.

Each definition below is translated from one function of the TypeScript
source.  Machine integers are modelled as `Nat`/`Int`, nullable values as
`Option`, and JavaScript falsiness on strings ("" and null are falsy) via
the helper `orFalsy`.  Effectful functions (database writes, HTTP calls)
are modelled as pure functions from their inputs plus oracles for the
remote responses to a transcript of the effects they perform.
-/

namespace CtxGen

/-- The JavaScript expression `a || b` for strings, where the empty string
stands for both `""` and `null`/`undefined` (all falsy). -/
def orFalsy (a b : String) : String :=
  if a = "" then b else a

/-- The JavaScript `String.prototype.includes` test, executable model:
`sub` occurs in `s` iff splitting on it produces more than one piece. -/
def jsIncludes (s sub : String) : Bool :=
  (s.splitOn sub).length != 1

/-! ## Data model (src/src/lib/types.ts) -/

/-- One entry of `WCProduct.attributes`: `{name, option?, options?}`.
Absent `option` is the empty string, absent `options` the empty list. -/
structure WCAttribute where
  name : String
  option : String := ""
  options : List String := []
deriving Repr, DecidableEq

/-- A WooCommerce product row.  The source field `type` is a reserved word
in Lean and is rendered `ptype`; `image`/`images` keep only the `src`
URLs, `categories` only the names, `variations` only the ids, exactly the
projections the translated functions read. -/
structure WCProduct where
  id : Nat
  parent_id : Nat := 0
  ptype : String := "simple"
  name : String := ""
  description : String := ""
  permalink : String := ""
  price : String := ""
  regular_price : String := ""
  sale_price : String := ""
  stock_status : String := "instock"
  stock_quantity : Option Int := none
  image : Option String := none
  images : List String := []
  attributes : List WCAttribute := []
  categories : List String := []
  variations : List Nat := []
deriving Repr, DecidableEq

/-- Multi-ratio image entry `{url, tag}` (src/src/lib/meta/types.ts). -/
structure MetaImage where
  url : String
  tag : List String := []
deriving Repr, DecidableEq

/-- The ad-catalog item shape produced by `mapToMetaProduct`
(src/src/lib/woocommerce.ts).  The CSV-only `image[i].url`/`image[i].tag[j]`
columns merged into the returned object are used solely by the CSV
serializer and are not part of this embedding. -/
structure MetaProduct where
  id : String
  title : String := ""
  description : String := ""
  rich_text_description : String := ""
  availability : String := "in stock"
  condition : String := "new"
  price : String := ""
  link : String := ""
  image_link : String := ""
  brand : String := ""
  images : Option (List MetaImage) := none
  age_group : Option String := none
  color : Option String := none
  gender : Option String := none
  size : Option String := none
  item_group_id : Option String := none
  google_product_category : String := ""
  product_type : String := ""
  sale_price : Option String := none
  status : String := "active"
  inventory : Option Int := none
deriving Repr, DecidableEq

/-- Batch method tag of `MetaBatchItem` (src/src/lib/meta/types.ts). -/
inductive BatchMethod where
  | CREATE
  | UPDATE
  | DELETE
deriving Repr, DecidableEq

/-- The `data` block of one batch item (src/src/lib/meta/types.ts,
`MetaBatchItemData`).  Note the interface has no `id` field. -/
structure MetaBatchItemData where
  availability : Option String := none
  inventory : Option Int := none
  title : Option String := none
  description : Option String := none
  image_link : Option String := none
  link : Option String := none
  price : Option String := none
  sale_price : Option String := none
  brand : Option String := none
  condition : Option String := none
  item_group_id : Option String := none
  size : Option String := none
  color : Option String := none
  product_type : Option String := none
  google_product_category : Option String := none
  image : Option (List MetaImage) := none
deriving Repr, DecidableEq

/-- One item passed to the batch-upsert client (`MetaBatchItem`). -/
structure MetaBatchItem where
  method : BatchMethod
  retailer_id : String
  data : MetaBatchItemData
deriving Repr, DecidableEq

/-- Error object of a Meta API response (only the message is read). -/
structure MetaError where
  message : String
deriving Repr, DecidableEq

/-- One entry of `MetaBatchResponse.validation_status`.  An absent
`errors` array is modelled by the empty list: the source only ever tests
`v.errors?.length`, which is falsy exactly on absent or empty. -/
structure ValidationStatus where
  retailer_id : String
  errors : List MetaError := []
deriving Repr, DecidableEq

/-- Response of the `items_batch` endpoint (`MetaBatchResponse`). -/
structure MetaBatchResponse where
  handles : List String := []
  validation_status : Option (List ValidationStatus) := none
  error : Option MetaError := none
deriving Repr, DecidableEq

/-- A `meta_sync_status` row (src/src/lib/db/sync-status.ts), restricted
to the fields the sync paths read.  `meta_product_exists` is an SQLite
integer, truthy iff nonzero. -/
structure SyncStatus where
  product_id : Nat := 0
  meta_retailer_id : String := ""
  sync_status : String := "pending"
  meta_product_exists : Int := 0
  last_availability : Option String := none
  last_inventory : Option Int := none
deriving Repr, DecidableEq

/-! ## Retailer-id policy (src/src/lib/utils/retailer-id.ts) -/

/-- `generateMetaRetailerId(product, parent?)`: the central policy
function.  A variation (positive `parent_id` or a parent object passed)
maps to `wc_<id>`, a variable product to `wc_<id>_main`, a simple product
to `wc_<id>`. -/
def generateMetaRetailerId (product : WCProduct) (parent : Option WCProduct := none) : String :=
  if product.parent_id > 0 ∨ parent.isSome then
    "wc_" ++ Nat.repr product.id
  else if product.ptype = "variable" then
    "wc_" ++ Nat.repr product.id ++ "_main"
  else
    "wc_" ++ Nat.repr product.id

/-- `generateMetaRetailerIdFromInfo(productId, type?, parentId?)`: the
event-processor variant computed from partial information. -/
def generateMetaRetailerIdFromInfo (productId : Nat) (ptype : Option String := none)
    (parentId : Option Nat := none) : String :=
  if ptype = some "variation" ∨ parentId.getD 0 > 0 then
    "wc_" ++ Nat.repr productId
  else if ptype = some "variable" then
    "wc_" ++ Nat.repr productId ++ "_main"
  else
    "wc_" ++ Nat.repr productId

/-- `generateItemGroupId(product, parent?)`: variations group under the
parent id, variable parents under their own id, simple products not at
all. -/
def generateItemGroupId (product : WCProduct) (parent : Option WCProduct := none) : Option String :=
  match parent with
  | some p => some ("wc_" ++ Nat.repr p.id)
  | none =>
    if product.ptype = "variable" then
      some ("wc_" ++ Nat.repr product.id)
    else
      none

/-- The inline retailer-id computation of `refreshAndGenerateFeed`
(src/src/lib/csv-generator.ts, the `metaRetailerId` ternary inside the
products transaction). -/
def refreshFeedRetailerId (product : WCProduct) : String :=
  if product.ptype = "variable" then
    "wc_" ++ Nat.repr product.id ++ "_main"
  else
    "wc_" ++ Nat.repr product.id

/-! ## Mapper (src/src/lib/woocommerce.ts, `mapToMetaProduct`) -/

/-- Environment of the mapper: the opaque string primitives it composes
(`stripHtml`, `encodeURIComponent`, URL-safe `Base64.encode`) and the
`WC_BRAND` / `WC_CURRENCY` configuration constants. -/
structure MapEnv where
  stripHtml : String → String
  encodeURIComponent : String → String
  base64UrlEncode : String → String
  WC_BRAND : String := "Lunatik"
  WC_CURRENCY : String := "BAM"

/-- Accumulator of the attribute-extraction loop in `mapToMetaProduct`. -/
structure AttrAcc where
  color : Option String := none
  size : Option String := none
  gender : Option String := none
  age_group : Option String := none
deriving Repr, DecidableEq

/-- The attribute-extraction loop of `mapToMetaProduct`: walk
`[...parent.attributes, ...product.attributes]`, and for each attribute
whose lowercased name contains "color"/"size"/"gender"/"age" assign
`attr.option || attr.options[0]` to the matching slot (later matches
overwrite earlier ones, exactly as the source loop reassigns). -/
def extractAttributes (attrs : List WCAttribute) : AttrAcc :=
  attrs.foldl
    (fun acc attr =>
      let nameLower := attr.name.toLower
      let opt : Option String :=
        if attr.option ≠ "" then some attr.option else attr.options.head?
      let acc := if jsIncludes nameLower "color" then { acc with color := opt } else acc
      let acc := if jsIncludes nameLower "size" then { acc with size := opt } else acc
      let acc := if jsIncludes nameLower "gender" then { acc with gender := opt } else acc
      let acc := if jsIncludes nameLower "age" then { acc with age_group := opt } else acc
      acc)
    {}

/-- `mapToMetaProduct(product, parent?, style)`: the pure mapper from a
source product (plus optional parent and style tag) to the ad-catalog
item shape.  Translated from the current version of
src/src/lib/woocommerce.ts (the one that delegates id and group-id to the
centralized policy functions). -/
def mapToMetaProduct (env : MapEnv) (product : WCProduct)
    (parent : Option WCProduct := none) (style : String := "standard") : MetaProduct :=
  let mainProduct := parent.getD product
  let id := generateMetaRetailerId product parent
  let title := mainProduct.name
  let description := (env.stripHtml (orFalsy product.description mainProduct.description)).take 5000
  let rich_text_description := env.stripHtml (orFalsy product.description mainProduct.description)
  let availability :=
    if product.stock_status = "instock" then "in stock"
    else if product.stock_status = "onbackorder" then "preorder"
    else "out of stock"
  let price := orFalsy product.regular_price product.price ++ " " ++ env.WC_CURRENCY
  let sale_price :=
    if product.sale_price ≠ "" then some (product.sale_price ++ " " ++ env.WC_CURRENCY) else none
  let link := orFalsy product.permalink mainProduct.permalink
  let original_image_link :=
    orFalsy (product.image.getD "")
      (orFalsy (product.images.head?.getD "") (mainProduct.images.head?.getD ""))
  let priceForImage := orFalsy product.regular_price product.price ++ " KM"
  let hasSalePrice := product.sale_price ≠ ""
  let salePriceForImage := if hasSalePrice then product.sale_price ++ " KM" else ""
  let encodedName := env.encodeURIComponent title
  let encodedPrice := env.encodeURIComponent priceForImage
  let encodedSalePrice := env.encodeURIComponent salePriceForImage
  let encodedImg := if original_image_link ≠ "" then env.base64UrlEncode original_image_link else ""
  let imagePair :=
    if original_image_link ≠ "" then
      let discountParam := if hasSalePrice then "&discount_price=" ++ encodedSalePrice else ""
      let baseParams := "price=" ++ encodedPrice ++ discountParam ++ "&name=" ++ encodedName
        ++ "&img=" ++ encodedImg ++ "&style=" ++ style
      let url1x1 := "https://imgen.lunatik.cloud/?" ++ baseParams ++ "&aspect_ratio=1:1"
      let url4x5 := "https://imgen.lunatik.cloud/?" ++ baseParams ++ "&aspect_ratio=4:5"
      let url9x16 := "https://imgen.lunatik.cloud/?" ++ baseParams ++ "&aspect_ratio=9:16"
      (url1x1,
        [MetaImage.mk url1x1 [],
         MetaImage.mk url4x5 ["ASPECT_RATIO_4_5_PREFERRED"],
         MetaImage.mk url9x16 ["STORY_PREFERRED", "REELS_PREFERRED"]])
    else ("", ([] : List MetaImage))
  let extracted := extractAttributes
    ((match parent with | some p => p.attributes | none => []) ++ product.attributes)
  { id := id
    title := title
    description := description
    rich_text_description := rich_text_description
    availability := availability
    condition := "new"
    price := price
    link := link
    image_link := imagePair.1
    brand := env.WC_BRAND
    images := if imagePair.2.length > 0 then some imagePair.2 else none
    age_group := extracted.age_group
    color := extracted.color
    gender := extracted.gender
    size := extracted.size
    item_group_id := generateItemGroupId product parent
    google_product_category := ""
    product_type :=
      String.intercalate " > " (match parent with | some p => p.categories | none => product.categories)
    sale_price := sale_price
    status := "active"
    inventory := if product.stock_status = "outofstock" then some 0 else product.stock_quantity }

/-! ## Batch item construction (src/src/lib/meta/catalog.ts) -/

/-- `mapAvailability(stockStatus)` as defined (identically) in
src/src/lib/sync/product-sync.ts and src/src/lib/meta/catalog.ts. -/
def mapAvailability (stockStatus : String) : String :=
  if stockStatus = "instock" then "in stock"
  else if stockStatus = "onbackorder" then "preorder"
  else "out of stock"

/-- JavaScript truthiness for an optional string field: present and
non-empty. -/
def truthyOpt (s : Option String) : Option String :=
  match s with
  | some v => if v = "" then none else some v
  | none => none

/-- JavaScript truthiness for a plain string field. -/
def truthyStr (s : String) : Option String :=
  if s = "" then none else some s

/-- The multi-ratio image array assembled inside `createBatchItem`: the
pre-built `images` array when present, else a single-image fallback from
`image_link`. -/
def batchImages (product : MetaProduct) : List MetaImage :=
  match product.images with
  | some l => l
  | none => if product.image_link ≠ "" then [MetaImage.mk product.image_link []] else []

/-- `createBatchItem(product, existsInCatalog)`
(src/src/lib/meta/catalog.ts): UPDATE carries only availability and
inventory; CREATE additionally attaches the descriptive fields, each
guarded by the same truthiness tests as the source. -/
def createBatchItem (product : MetaProduct) (existsInCatalog : Bool) : MetaBatchItem :=
  let method := if existsInCatalog then BatchMethod.UPDATE else BatchMethod.CREATE
  let data : MetaBatchItemData :=
    { availability := some product.availability
      inventory := product.inventory }
  let data :=
    if existsInCatalog then data
    else
      let images := batchImages product
      { data with
        title := some product.title
        description := some product.description
        link := some product.link
        price := some product.price
        brand := some product.brand
        condition := some product.condition
        item_group_id := truthyOpt product.item_group_id
        size := truthyOpt product.size
        color := truthyOpt product.color
        product_type := truthyStr product.product_type
        google_product_category := truthyStr product.google_product_category
        image := if images.length > 0 then some images else none }
  { method := method, retailer_id := product.id, data := data }

/-- The validation-error lookup shared verbatim by `syncSingleProduct`,
`syncProductToMeta`, `batchSyncProducts` and `performInitialSync`:
`validation_status?.find(v => v.retailer_id === id && v.errors?.length)`,
then the joined error messages when such an entry exists. -/
def findValidationError (vs : Option (List ValidationStatus)) (retailerId : String) : Option String :=
  match vs with
  | none => none
  | some l =>
    match l.find? (fun v => v.retailer_id == retailerId && !v.errors.isEmpty) with
    | some v => some (String.intercalate ", " (v.errors.map (fun e => e.message)))
    | none => none

/-! ## Batch-upsert client (src/src/lib/meta/client.ts) -/

/-- `updateProductStock(retailerId, availability, inventory?)`: the
single-item UPDATE it builds and submits. -/
def updateStockItem (retailerId : String) (availability : String)
    (inventory : Option Int := none) : MetaBatchItem :=
  { method := BatchMethod.UPDATE
    retailer_id := retailerId
    data := { availability := some availability, inventory := inventory } }

/-- One request of the `items_batch` envelope built by
`batchUpsertProducts`: `{method, retailer_id, data: {id: retailer_id,
...item.data}}`.  The injected `id` is kept as a separate field
`data_id`; the `MetaBatchItemData` interface has no `id` member, so the
spread cannot override it. -/
structure BatchRequestEntry where
  method : BatchMethod
  retailer_id : String
  data_id : String
  data : MetaBatchItemData
deriving Repr, DecidableEq

/-- The full request body `{item_type: "PRODUCT_ITEM", requests}` of
`batchUpsertProducts`. -/
structure BatchRequestBody where
  item_type : String
  requests : List BatchRequestEntry
deriving Repr, DecidableEq

/-- `batchUpsertProducts(items)`: the request envelope it POSTs. -/
def batchUpsertRequestBody (items : List MetaBatchItem) : BatchRequestBody :=
  { item_type := "PRODUCT_ITEM"
    requests := items.map (fun item =>
      { method := item.method
        retailer_id := item.retailer_id
        data_id := item.retailer_id
        data := item.data }) }

/-! ## Targeted sync path (src/src/lib/sync/product-sync.ts) -/

/-- `hasStockChanged(product, syncStatus)`: true when there is no
sync-status row, or when the last observed availability or inventory
differs from the freshly mapped values (`stock_quantity ?? 0`). -/
def hasStockChanged (product : WCProduct) (syncStatus : Option SyncStatus) : Bool :=
  match syncStatus with
  | none => true
  | some s =>
    let newAvailability := mapAvailability product.stock_status
    let newInventory := product.stock_quantity.getD 0
    s.last_availability != some newAvailability || s.last_inventory != some newInventory

/-- The truthiness test `syncStatus?.meta_product_exists` used by
`syncSingleProduct` and `handleProductDeleted`: a row is present and its
SQLite integer latch is nonzero. -/
def metaProductExistsTruthy (syncStatus : Option SyncStatus) : Bool :=
  match syncStatus with
  | some s => s.meta_product_exists != 0
  | none => false

/-- One database side effect performed by a sync path: the sync-status
writes of src/src/lib/db/sync-status.ts plus the product-table writes the
handlers perform. -/
inductive StatusOp where
  | upsertProduct (productId : Nat)
  | upsertStatus (productId : Nat) (retailerId : String) (syncStatus : String)
      (metaProductExists : Option Int) (lastError : Option String)
  | markSynced (retailerId : String) (availability : String) (inventory : Option Int)
  | markError (retailerId : String) (message : String)
  | deleteProduct (productId : Nat)
  | deleteSyncStatus (productId : Nat)
deriving Repr, DecidableEq

/-- Transcript of one `syncSingleProduct` run: the retailer-id lookups
issued against the ad catalog, the batches submitted (each a list of
items), the database writes, and the returned `{success, action, error}`. -/
structure SyncEffects where
  lookups : List String := []
  batches : List (List MetaBatchItem) := []
  ops : List StatusOp := []
  success : Bool := true
  action : String := "skipped"
  error : Option String := none
deriving Repr, DecidableEq

/-- `syncSingleProduct(product, parent?)` as a pure function.  The two
remote interactions are supplied as oracles: `existsInMeta` is the result
of `getProductByRetailerId` (consulted only on the in-stock changed
branch) and `response` the result of `batchUpsertProducts` (consulted
only when a batch is actually submitted). -/
def syncSingleProduct (env : MapEnv) (product : WCProduct) (parent : Option WCProduct)
    (syncStatus : Option SyncStatus) (existsInMeta : Bool) (response : MetaBatchResponse)
    (style : String := "standard") : SyncEffects :=
  let metaRetailerId := generateMetaRetailerId product parent
  let baseOps := [StatusOp.upsertProduct product.id]
  if product.stock_status ≠ "instock" then
    if metaProductExistsTruthy syncStatus then
      let metaProduct0 := mapToMetaProduct env product parent style
      let metaProduct := { metaProduct0 with availability := "out of stock", inventory := some 0 }
      let item := createBatchItem metaProduct true
      match response.error with
      | some err =>
        { batches := [[item]], ops := baseOps ++ [StatusOp.markError metaRetailerId err.message]
          success := false, action := "skipped", error := some err.message }
      | none =>
        { batches := [[item]]
          ops := baseOps ++ [StatusOp.markSynced metaRetailerId "out of stock" (some 0)]
          success := true, action := "updated" }
    else
      { ops := baseOps, success := true, action := "skipped" }
  else if ¬ hasStockChanged product syncStatus then
    { ops := baseOps, success := true, action := "skipped" }
  else
    let metaProduct := mapToMetaProduct env product parent style
    let pendingOps := baseOps ++
      [StatusOp.upsertStatus product.id metaRetailerId "pending"
        (some (if existsInMeta then 1 else 0)) none]
    let item := createBatchItem metaProduct existsInMeta
    match response.error with
    | some err =>
      { lookups := [metaRetailerId], batches := [[item]]
        ops := pendingOps ++ [StatusOp.markError metaRetailerId err.message]
        success := false, action := "skipped", error := some err.message }
    | none =>
      match findValidationError response.validation_status metaRetailerId with
      | some msg =>
        { lookups := [metaRetailerId], batches := [[item]]
          ops := pendingOps ++ [StatusOp.markError metaRetailerId msg]
          success := false, action := "skipped", error := some msg }
      | none =>
        { lookups := [metaRetailerId], batches := [[item]]
          ops := pendingOps ++
            [StatusOp.markSynced metaRetailerId metaProduct.availability metaProduct.inventory]
          success := true
          action := if existsInMeta then "updated" else "created" }

/-! ## Bulk path (src/src/lib/sync/initial-sync.ts) -/

/-- Item emission of `performInitialSync` step 4 for one fetched product:
a variable product with a non-empty variation list yields one item per
in-stock fetched variation (each stamped `parent_id`/`type` first and
mapped with the parent); otherwise an in-stock product is treated as
simple and yields one item; anything else yields none.  `variationsOf` is
the oracle for the per-product variations fetch and `catalog` the set of
retailer-ids present in the ad catalog. -/
def initialSyncEmit (env : MapEnv) (variationsOf : Nat → List WCProduct)
    (catalog : List String) (product : WCProduct) : List MetaBatchItem :=
  if product.ptype = "variable" ∧ product.variations.length > 0 then
    (variationsOf product.id).filterMap (fun v0 =>
      let v := { v0 with parent_id := product.id, ptype := "variation" }
      if v.stock_status = "instock" then
        some (createBatchItem (mapToMetaProduct env v (some product))
          (catalog.contains (generateMetaRetailerId v (some product))))
      else
        none)
  else if product.stock_status = "instock" then
    [createBatchItem (mapToMetaProduct env product none)
      (catalog.contains (generateMetaRetailerId product none))]
  else
    []

/-- The full `batchItems` list prepared by `performInitialSync` step 4:
the concatenation of the per-product emissions in source order. -/
def initialSyncBatchItems (env : MapEnv) (variationsOf : Nat → List WCProduct)
    (catalog : List String) (products : List WCProduct) : List MetaBatchItem :=
  products.flatMap (initialSyncEmit env variationsOf catalog)

/-- Counter deltas of the sync report accumulated per chunk
(`performInitialSync` step 6). -/
structure ReportDelta where
  created : Nat := 0
  updated : Nat := 0
  synced : Nat := 0
  errors : Nat := 0
deriving Repr, DecidableEq

/-- The gated sync-status write of `performInitialSync` step 6: every
write is guarded by `const productId = productIdMap.get(id); if
(productId) {...}`, so nothing is written when the map misses or holds
the falsy 0. -/
def gatedOp (productIdMap : String → Option Nat) (retailerId : String)
    (op : Nat → StatusOp) : Option StatusOp :=
  match productIdMap retailerId with
  | some pid => if pid = 0 then none else some (op pid)
  | none => none

/-- Response interpretation of `performInitialSync` step 6 for one
submitted chunk: a top-level error only advances the error counter; a
validation-status array drives per-item error/synced marking; neither
means optimistic success for every item.  Returns the report delta and
the sync-status writes in source order. -/
def processChunkInitial (chunk : List MetaBatchItem) (productIdMap : String → Option Nat)
    (response : MetaBatchResponse) : ReportDelta × List StatusOp :=
  match response.error with
  | some _ => ({ errors := chunk.length }, [])
  | none =>
    match response.validation_status with
    | some vs =>
      let hasErr := fun (item : MetaBatchItem) =>
        (findValidationError (some vs) item.retailer_id).isSome
      let delta : ReportDelta :=
        { errors := (chunk.filter (fun i => hasErr i)).length
          created := (chunk.filter (fun i => !hasErr i && i.method == BatchMethod.CREATE)).length
          updated := (chunk.filter (fun i => !hasErr i && i.method != BatchMethod.CREATE)).length
          synced := (chunk.filter (fun i => !hasErr i)).length }
      let ops := chunk.filterMap (fun item =>
        match findValidationError (some vs) item.retailer_id with
        | some msg =>
          gatedOp productIdMap item.retailer_id (fun pid =>
            StatusOp.upsertStatus pid item.retailer_id "error" none (some msg))
        | none =>
          gatedOp productIdMap item.retailer_id (fun _ =>
            StatusOp.markSynced item.retailer_id (item.data.availability.getD "in stock")
              item.data.inventory))
      (delta, ops)
    | none =>
      ({ created := (chunk.filter (fun i => i.method == BatchMethod.CREATE)).length
         updated := (chunk.filter (fun i => i.method != BatchMethod.CREATE)).length
         synced := chunk.length },
       chunk.filterMap (fun item =>
         gatedOp productIdMap item.retailer_id (fun _ =>
           StatusOp.markSynced item.retailer_id (item.data.availability.getD "in stock")
             item.data.inventory)))

/-- Response interpretation of one chunk inside `batchSyncProducts`
(src/src/lib/meta/catalog.ts): a top-level error marks every item of the
chunk as error in sync-status; otherwise items found in the per-chunk
product map are marked error or synced according to their validation
entry. -/
def processChunkCatalog (batchItems : List MetaBatchItem)
    (productMap : String → Option (MetaProduct × Bool)) (response : MetaBatchResponse) :
    ReportDelta × List StatusOp :=
  match response.error with
  | some err =>
    ({ errors := batchItems.length },
     batchItems.map (fun item => StatusOp.markError item.retailer_id err.message))
  | none =>
    let outcome := fun (item : MetaBatchItem) =>
      match productMap item.retailer_id with
      | none => none
      | some info =>
        match findValidationError response.validation_status item.retailer_id with
        | some msg => some (true, StatusOp.markError item.retailer_id msg, info.2)
        | none =>
          some (false, StatusOp.markSynced item.retailer_id info.1.availability info.1.inventory,
            info.2)
    ({ errors := (batchItems.filter (fun i =>
         match outcome i with | some (e, _, _) => e | none => false)).length
       created := (batchItems.filter (fun i =>
         match outcome i with | some (e, _, ex) => !e && !ex | none => false)).length
       updated := (batchItems.filter (fun i =>
         match outcome i with | some (e, _, ex) => !e && ex | none => false)).length
       synced := 0 },
     batchItems.filterMap (fun i => (outcome i).map (fun o => o.2.1)))

/-! ## Webhook endpoint (src/unnamed/part_007 handler, part_009 validator) -/

/-- `validateWebhookSignature(payload, signature)`: false when the
signature header or the shared secret is missing, else a comparison with
the base64-encoded HMAC-SHA-256 of the payload under the secret.  The
crypto primitive is supplied as the oracle `hmacB64 secret payload`. -/
def validateWebhookSignature (hmacB64 : String → String → String) (secret : Option String)
    (payload : String) (signature : Option String) : Bool :=
  match signature, secret with
  | some sig, some sec => sig == hmacB64 sec payload
  | _, _ => false

/-- `isValidSource(source)`: both the header URL and the configured
source URL must parse and agree on the hostname.  `hostOf` is the oracle
for `new URL(u).hostname` (`none` when parsing throws). -/
def isValidSource (hostOf : String → Option String) (wcApiUrl : Option String)
    (source : Option String) : Bool :=
  match source, wcApiUrl with
  | some s, some api =>
    match hostOf s, hostOf api with
    | some h1, some h2 => h1 == h2
    | _, _ => false
  | _, _ => false

/-- An inbound webhook request: the three validated headers plus the raw
body. -/
structure WebhookRequest where
  topic : Option String := none
  signature : Option String := none
  source : Option String := none
  body : String := ""
deriving Repr, DecidableEq

/-- Observable outcome of `handleWebhook`: the HTTP status, the event
records inserted (topic and product id), and whether the payload was
handed to the asynchronous processor (the only caller that can issue
batch requests). -/
structure HandlerOutcome where
  status : Nat
  events : List (String × Nat) := []
  dispatched : Bool := false
deriving Repr, DecidableEq

/-- `handleWebhook(req)` (src/unnamed/part_007): the fail-fast validation
pipeline.  `parseBody` is the oracle for `JSON.parse` (`none` when it
throws). -/
def handleWebhook (hmacB64 : String → String → String) (hostOf : String → Option String)
    (parseBody : String → Option WCProduct) (secret : Option String) (wcApiUrl : Option String)
    (req : WebhookRequest) : HandlerOutcome :=
  match req.topic with
  | none => { status := 400 }
  | some topic =>
    if ¬ isValidSource hostOf wcApiUrl req.source then
      { status := 403 }
    else if ¬ validateWebhookSignature hmacB64 secret req.body req.signature then
      { status := 401 }
    else
      match parseBody req.body with
      | none => { status := 400 }
      | some productData =>
        { status := 200, events := [(topic, productData.id)], dispatched := true }

/-! ## Event processor (src/unnamed/part_008, current version) -/

/-- The variation branch of `handleProductUpdated` (a variation is a
payload with `type === "variation"` or positive `parent_id`): rehydrate
the parent via the source API; on success stamp `type = "variation"` and
sync with the parent, on fetch failure fall back to syncing the bare
payload without a parent.  `fetchParent` is the oracle for the parent
fetch (`none` models the thrown error). -/
def handleProductUpdatedVariationBranch (env : MapEnv) (product : WCProduct)
    (fetchParent : Nat → Option WCProduct) (syncStatus : Option SyncStatus)
    (existsInMeta : Bool) (response : MetaBatchResponse) : SyncEffects :=
  match fetchParent product.parent_id with
  | some parent =>
    syncSingleProduct env { product with ptype := "variation" } (some parent) syncStatus
      existsInMeta response
  | none =>
    syncSingleProduct env product none syncStatus existsInMeta response

/-- Transcript of `handleProductDeleted`: the batches submitted to the ad
catalog and the local database deletions. -/
structure DeleteEffects where
  batches : List (List MetaBatchItem) := []
  localOps : List StatusOp := []
deriving Repr, DecidableEq

/-- `handleProductDeleted(product)` (src/unnamed/part_008): when the
product is latched as existing remotely, submit one single-item
out-of-stock UPDATE via `updateProductStock`; then delete the local
product row and its sync-status row.  No ad-catalog DELETE is ever
issued. -/
def handleProductDeleted (product : WCProduct) (syncStatus : Option SyncStatus) : DeleteEffects :=
  let batches :=
    if metaProductExistsTruthy syncStatus then
      [[updateStockItem
        (generateMetaRetailerIdFromInfo product.id (some product.ptype) (some product.parent_id))
        "out of stock" (some 0)]]
    else
      []
  { batches := batches
    localOps := [StatusOp.deleteProduct product.id, StatusOp.deleteSyncStatus product.id] }

/-! ## Concrete instantiations used by witnesses -/

/-- A concrete mapper environment for evaluating the embedding on sample
inputs: the opaque string primitives are instantiated with the identity
(none of the verified properties depend on them). -/
def testEnv : MapEnv :=
  { stripHtml := fun s => s
    encodeURIComponent := fun s => s
    base64UrlEncode := fun s => s }

/-- Sample variable parent: two listed variations. -/
def sampleParent : WCProduct :=
  { id := 100, ptype := "variable", stock_status := "instock", variations := [201, 202] }

/-- Sample variations oracle: one in-stock and one out-of-stock child. -/
def sampleVariations : Nat → List WCProduct := fun _ =>
  [{ id := 201, stock_status := "instock", stock_quantity := some 3 },
   { id := 202, stock_status := "outofstock" }]

/-- Sample variations oracle with no in-stock child. -/
def sampleVariationsAllOut : Nat → List WCProduct := fun _ =>
  [{ id := 202, stock_status := "outofstock" }]

/-- The batch item the bulk path builds for the in-stock sample
variation (parent stamped, mapped with the parent, not yet in the
catalog). -/
def sampleVariationItem : MetaBatchItem :=
  createBatchItem
    (mapToMetaProduct testEnv
      { id := 201, parent_id := 100, ptype := "variation", stock_quantity := some 3 }
      (some sampleParent))
    false

/-! ## Helper lemmas about decimal rendering of ids -/

/-- Decimal digit characters are never an underscore. -/
theorem digitChar_ne_underscore (n : Nat) : Nat.digitChar n ≠ '_' := by
  by_cases h16 : n < 16
  · interval_cases n <;> decide
  · unfold Nat.digitChar
    repeat rw [if_neg (by omega)]
    decide

/-- `Nat.toDigitsCore` only prepends digit characters, so an underscore
in its output must already be in the accumulator. -/
theorem toDigitsCore_ne_underscore (b : Nat) (fuel : Nat) :
    ∀ (n : Nat) (ds : List Char), (∀ c ∈ ds, c ≠ '_') →
      ∀ c ∈ Nat.toDigitsCore b fuel n ds, c ≠ '_' := by
  induction fuel with
  | zero =>
    intro n ds h c hc
    exact h c hc
  | succ fuel ih =>
    intro n ds h c hc
    rw [Nat.toDigitsCore] at hc
    by_cases hz : n / b = 0
    · rw [if_pos hz] at hc
      rcases List.mem_cons.mp hc with hc | hc
      · exact hc ▸ digitChar_ne_underscore (n % b)
      · exact h c hc
    · rw [if_neg hz] at hc
      refine ih (n / b) (Nat.digitChar (n % b) :: ds) ?_ c hc
      intro d hd
      rcases List.mem_cons.mp hd with hd | hd
      · exact hd ▸ digitChar_ne_underscore (n % b)
      · exact h d hd

/-- The decimal rendering of a natural number contains no underscore. -/
theorem repr_no_underscore (n : Nat) : '_' ∉ (Nat.repr n).data := by
  intro hmem
  have hd : (Nat.repr n).data = Nat.toDigitsCore 10 (n + 1) n [] := rfl
  rw [hd] at hmem
  exact toDigitsCore_ne_underscore 10 (n + 1) n []
    (by intro c hc; cases hc) '_' hmem rfl

/-- A plain `wc_<n>` id never coincides with a `wc_<m>_main` id, whatever
the two numbers are: the latter contains an underscore after the digits. -/
theorem wc_plain_ne_wc_main (n m : Nat) :
    "wc_" ++ Nat.repr n ≠ "wc_" ++ Nat.repr m ++ "_main" := by
  intro h
  have hdata := congrArg String.data h
  simp only [String.data_append] at hdata
  rw [List.append_assoc] at hdata
  have hcancel := List.append_cancel_left hdata
  have : '_' ∈ (Nat.repr n).data := by
    rw [hcancel]
    exact List.mem_append_right _ (by decide)
  exact repr_no_underscore n this

/-- Appending the `_main` suffix changes any string (by length). -/
theorem append_main_ne_self (s : String) : s ++ "_main" ≠ s := by
  intro h
  have hlen := congrArg String.length h
  rw [String.length_append] at hlen
  have h5 : ("_main" : String).length = 5 := rfl
  rw [h5] at hlen
  omega

/-! ## Projection lemmas for the mapper -/

/-- The mapped item's id is the centralized retailer-id. -/
theorem mapToMetaProduct_id (env : MapEnv) (p : WCProduct) (parent : Option WCProduct)
    (style : String) :
    (mapToMetaProduct env p parent style).id = generateMetaRetailerId p parent := rfl

/-- The mapped item's group id is the centralized group-id. -/
theorem mapToMetaProduct_item_group_id (env : MapEnv) (p : WCProduct) (parent : Option WCProduct)
    (style : String) :
    (mapToMetaProduct env p parent style).item_group_id = generateItemGroupId p parent := rfl

/-- The mapped item's availability is the stock-status mapping. -/
theorem mapToMetaProduct_availability (env : MapEnv) (p : WCProduct) (parent : Option WCProduct)
    (style : String) :
    (mapToMetaProduct env p parent style).availability = mapAvailability p.stock_status := rfl

/-- The mapped item's inventory: forced to 0 for out-of-stock products,
otherwise the source stock quantity. -/
theorem mapToMetaProduct_inventory (env : MapEnv) (p : WCProduct) (parent : Option WCProduct)
    (style : String) :
    (mapToMetaProduct env p parent style).inventory =
      (if p.stock_status = "outofstock" then some 0 else p.stock_quantity) := rfl

/-- With a parent object passed, the central policy always yields the
plain `wc_<id>` form. -/
theorem generateMetaRetailerId_with_parent (q par : WCProduct) :
    generateMetaRetailerId q (some par) = "wc_" ++ Nat.repr q.id := by
  unfold generateMetaRetailerId
  rw [if_pos (Or.inr rfl : q.parent_id > 0 ∨ (some par).isSome = true)]

/-- The retailer-id of a batch item built by `createBatchItem` is the
mapped item's id. -/
theorem createBatchItem_retailer_id (q : MetaProduct) (ex : Bool) :
    (createBatchItem q ex).retailer_id = q.id := by
  cases ex <;> rfl

/-- The method of a batch item built by `createBatchItem`. -/
theorem createBatchItem_method (q : MetaProduct) (ex : Bool) :
    (createBatchItem q ex).method = (if ex then BatchMethod.UPDATE else BatchMethod.CREATE) := rfl

/-! ## C10 -/

/-- C10: a batch item built for a product that already exists remotely
(method UPDATE) carries a data block with exactly the availability and
inventory fields; all descriptive fields (title, description, link,
price, brand, condition, item-group-id, size, color, product-type,
google category, images) are attached only on the CREATE side, so an
UPDATE never transmits price, description or image changes. -/
theorem createBatchItem_update_is_minimal (q : MetaProduct) :
    (createBatchItem q true).method = BatchMethod.UPDATE ∧
    (createBatchItem q false).method = BatchMethod.CREATE ∧
    (createBatchItem q true).data =
      { availability := some q.availability, inventory := q.inventory } :=
  ⟨rfl, rfl, rfl⟩

/-! ## C9 -/

/-- C9: every request of the envelope built by `batchUpsertProducts`
carries a data-block id equal to its top-level retailer id; the
`MetaBatchItemData` interface has no id member, so no field of the
item's data block can override the injected value. -/
theorem batchUpsert_data_id_matches (items : List MetaBatchItem) :
    ∀ r ∈ (batchUpsertRequestBody items).requests, r.data_id = r.retailer_id := by
  intro r hr
  simp only [batchUpsertRequestBody, List.mem_map] at hr
  obtain ⟨item, -, rfl⟩ := hr
  rfl

/-- Witness for C9: the envelope of a one-item stock update carries
`id == retailer_id` in its data block. -/
theorem batchUpsert_data_id_matches_witness :
    ({ method := BatchMethod.UPDATE, retailer_id := "wc_42", data_id := "wc_42",
       data := { availability := some "out of stock", inventory := some 0 } } :
      BatchRequestEntry).data_id = "wc_42" :=
  batchUpsert_data_id_matches [updateStockItem "wc_42" "out of stock" (some 0)] _ (by decide)

/-! ## C6 -/

/-- Counterexample for C6: a product reported in stock with a stock
quantity of 0 maps to an item with inventory 0 and availability
"in stock" — the claimed invariant (inventory 0 implies availability
"out of stock") fails on this input. -/
theorem mapped_item_zero_inventory_in_stock :
    (mapToMetaProduct testEnv
      { id := 42, stock_status := "instock", stock_quantity := some 0 } none
      "standard").inventory = some 0 ∧
    (mapToMetaProduct testEnv
      { id := 42, stock_status := "instock", stock_quantity := some 0 } none
      "standard").availability = "in stock" :=
  ⟨rfl, rfl⟩

/-- C6 (amended): the mapper forces inventory to 0 together with
availability "out of stock" exactly for products whose source
stock-status is out-of-stock; a product reported in stock (or on
backorder) with stock quantity 0 keeps its in-stock (or preorder)
availability next to inventory 0. -/
theorem mapped_item_outofstock_inventory (env : MapEnv) (p : WCProduct)
    (parent : Option WCProduct) (style : String) (h : p.stock_status = "outofstock") :
    (mapToMetaProduct env p parent style).inventory = some 0 ∧
    (mapToMetaProduct env p parent style).availability = "out of stock" := by
  rw [mapToMetaProduct_inventory, mapToMetaProduct_availability]
  unfold mapAvailability
  rw [h]
  exact ⟨rfl, rfl⟩

/-- Witness for C6 (amended): evaluated on a concrete out-of-stock
product. -/
theorem mapped_item_outofstock_inventory_witness :
    (mapToMetaProduct testEnv { id := 7, stock_status := "outofstock" } none
      "standard").inventory = some 0 ∧
    (mapToMetaProduct testEnv { id := 7, stock_status := "outofstock" } none
      "standard").availability = "out of stock" :=
  mapped_item_outofstock_inventory testEnv { id := 7, stock_status := "outofstock" } none
    "standard" rfl

/-! ## C1 -/

/-- C1: under the documented data-model invariant that a variable row has
parent-id 0, the retailer-id policy holds (variation to `wc_<id>`,
variable parent to `wc_<id>_main`, simple to `wc_<id>`) and all three
computations — the central policy function, the event-processor variant
from partial info, and the feed-refresh inline ternary — agree on every
product. -/
theorem retailer_id_policy_agreement (p : WCProduct)
    (hp : p.ptype = "variable" → p.parent_id = 0) :
    ((p.parent_id > 0 ∨ p.ptype = "variation") →
      generateMetaRetailerId p none = "wc_" ++ Nat.repr p.id) ∧
    (p.ptype = "variable" →
      generateMetaRetailerId p none = "wc_" ++ Nat.repr p.id ++ "_main") ∧
    (p.parent_id = 0 → p.ptype ≠ "variable" →
      generateMetaRetailerId p none = "wc_" ++ Nat.repr p.id) ∧
    (∀ parent, generateMetaRetailerId p (some parent) = "wc_" ++ Nat.repr p.id) ∧
    generateMetaRetailerIdFromInfo p.id (some p.ptype) (some p.parent_id) =
      generateMetaRetailerId p none ∧
    refreshFeedRetailerId p = generateMetaRetailerId p none := by
  have hvv : ("variable" : String) ≠ "variation" := by decide
  by_cases hv : p.ptype = "variable"
  · have h0 : p.parent_id = 0 := hp hv
    refine ⟨?_, ?_, ?_, ?_, ?_, ?_⟩ <;>
      simp [generateMetaRetailerId, generateMetaRetailerIdFromInfo, refreshFeedRetailerId,
        hv, h0, hvv]
  · by_cases hpid : p.parent_id > 0
    · have h0 : p.parent_id ≠ 0 := by omega
      by_cases hvar : p.ptype = "variation" <;>
        refine ⟨?_, ?_, ?_, ?_, ?_, ?_⟩ <;>
          simp [generateMetaRetailerId, generateMetaRetailerIdFromInfo, refreshFeedRetailerId,
            hv, hvar, hpid, h0]
    · have h0 : p.parent_id = 0 := by omega
      by_cases hvar : p.ptype = "variation" <;>
        refine ⟨?_, ?_, ?_, ?_, ?_, ?_⟩ <;>
          simp [generateMetaRetailerId, generateMetaRetailerIdFromInfo, refreshFeedRetailerId,
            hv, hvar, hpid, h0]

/-- Witness for C1: the policy and the agreement evaluated on a concrete
variable parent, a concrete variation and a concrete simple product. -/
theorem retailer_id_policy_agreement_witness :
    generateMetaRetailerId { id := 5, ptype := "variable" } none = "wc_5_main" ∧
    generateMetaRetailerId { id := 6, parent_id := 3, ptype := "variation" } none = "wc_6" ∧
    generateMetaRetailerIdFromInfo 6 (some "variation") (some 3) =
      generateMetaRetailerId { id := 6, parent_id := 3, ptype := "variation" } none ∧
    refreshFeedRetailerId { id := 8 } = generateMetaRetailerId { id := 8 } none :=
  ⟨(retailer_id_policy_agreement { id := 5, ptype := "variable" } (fun _ => rfl)).2.1 rfl,
   (retailer_id_policy_agreement { id := 6, parent_id := 3, ptype := "variation" }
     (fun h => absurd h (by decide))).1 (Or.inl (by decide)),
   (retailer_id_policy_agreement { id := 6, parent_id := 3, ptype := "variation" }
     (fun h => absurd h (by decide))).2.2.2.2.1,
   (retailer_id_policy_agreement { id := 8 } (fun _ => rfl)).2.2.2.2.2⟩

/-! ## C7 -/

/-- Counterexample for C7: the event processor's parent-fetch-failure
fallback (`handleProductUpdated`, catch branch) builds the ad-catalog
item for a variation without a parent, and that item carries no
item-group-id at all — not `wc_<parent-id>` as claimed for every code
path. -/
theorem variation_fallback_item_without_group :
    ((handleProductUpdatedVariationBranch testEnv
        { id := 11, parent_id := 7, ptype := "variation", stock_status := "instock",
          stock_quantity := some 3 }
        (fun _ => none) none false {}).batches.map
      (fun batch => batch.map (fun item => item.data.item_group_id))) = [[none]] := by
  decide

/-- C7 (amended): whenever the parent product is available and passed to
the mapper, a variation's item-group-id equals `wc_<parent-id>`; a
variable parent's own group id is `wc_<id>`, which differs from its own
retailer-id `wc_<id>_main`; a simple product's item has no group id.
Only the parent-fetch-failure fallback of the event processor maps a
variation without its parent, and the item then has no group id. -/
theorem item_group_id_policy (env : MapEnv) (p parent : WCProduct) (style : String) :
    (mapToMetaProduct env p (some parent) style).item_group_id =
      some ("wc_" ++ Nat.repr parent.id) ∧
    (p.ptype = "variable" →
      (mapToMetaProduct env p none style).item_group_id = some ("wc_" ++ Nat.repr p.id) ∧
      (p.parent_id = 0 →
        generateMetaRetailerId p none = "wc_" ++ Nat.repr p.id ++ "_main") ∧
      "wc_" ++ Nat.repr p.id ++ "_main" ≠ "wc_" ++ Nat.repr p.id) ∧
    (p.ptype ≠ "variable" → (mapToMetaProduct env p none style).item_group_id = none) := by
  refine ⟨?_, fun hv => ⟨?_, fun h0 => ?_, ?_⟩, fun hv => ?_⟩
  · rw [mapToMetaProduct_item_group_id]; rfl
  · rw [mapToMetaProduct_item_group_id]
    unfold generateItemGroupId
    rw [if_pos hv]
  · unfold generateMetaRetailerId
    rw [if_neg, if_pos hv]
    simp [h0]
  · exact append_main_ne_self ("wc_" ++ Nat.repr p.id)
  · rw [mapToMetaProduct_item_group_id]
    unfold generateItemGroupId
    rw [if_neg hv]

/-- Witness for C7 (amended): evaluated on a concrete variation with its
parent and on a concrete variable parent. -/
theorem item_group_id_policy_witness :
    (mapToMetaProduct testEnv
      { id := 11, parent_id := 7, ptype := "variation" }
      (some { id := 7, ptype := "variable" }) "standard").item_group_id = some "wc_7" ∧
    (mapToMetaProduct testEnv { id := 5, ptype := "variable" } none
      "standard").item_group_id = some "wc_5" ∧
    (mapToMetaProduct testEnv { id := 9 } none "standard").item_group_id = none :=
  ⟨(item_group_id_policy testEnv { id := 11, parent_id := 7, ptype := "variation" }
      { id := 7, ptype := "variable" } "standard").1,
   ((item_group_id_policy testEnv { id := 5, ptype := "variable" } { id := 1 }
      "standard").2.1 rfl).1,
   (item_group_id_policy testEnv { id := 9 } { id := 1 } "standard").2.2 (by decide)⟩

/-! ## C2 -/

/-- C2: the targeted sync path for one product.  Out-of-stock and latched
as existing remotely: exactly one single-item UPDATE batch with
availability "out of stock" and inventory 0, and (on a non-error
response) the sync-status is stamped with those values.  Out-of-stock and
not known remotely: no remote call at all.  In stock and unchanged since
the last sync: no lookup, no batch, result "skipped".  The change test is
`last_availability != new_availability OR last_inventory !=
new_inventory` with the new inventory `stock_quantity ?? 0`. -/
theorem syncSingleProduct_targeted_cases (env : MapEnv) (p : WCProduct)
    (parent : Option WCProduct) (st : Option SyncStatus) (existsInMeta : Bool)
    (resp : MetaBatchResponse) :
    (p.stock_status ≠ "instock" → metaProductExistsTruthy st = true →
      (∃ item, (syncSingleProduct env p parent st existsInMeta resp).batches = [[item]] ∧
        item.method = BatchMethod.UPDATE ∧
        item.data.availability = some "out of stock" ∧
        item.data.inventory = some 0) ∧
      (resp.error = none →
        StatusOp.markSynced (generateMetaRetailerId p parent) "out of stock" (some 0) ∈
          (syncSingleProduct env p parent st existsInMeta resp).ops)) ∧
    (p.stock_status ≠ "instock" → metaProductExistsTruthy st = false →
      (syncSingleProduct env p parent st existsInMeta resp).batches = [] ∧
      (syncSingleProduct env p parent st existsInMeta resp).lookups = [] ∧
      (syncSingleProduct env p parent st existsInMeta resp).action = "skipped") ∧
    (p.stock_status = "instock" → hasStockChanged p st = false →
      (syncSingleProduct env p parent st existsInMeta resp).batches = [] ∧
      (syncSingleProduct env p parent st existsInMeta resp).lookups = [] ∧
      (syncSingleProduct env p parent st existsInMeta resp).action = "skipped" ∧
      (syncSingleProduct env p parent st existsInMeta resp).success = true) ∧
    (∀ s, hasStockChanged p (some s) =
      ((s.last_availability != some (mapAvailability p.stock_status)) ||
       (s.last_inventory != some (p.stock_quantity.getD 0)))) := by
  refine ⟨?_, ?_, ?_, fun s => rfl⟩
  · intro hoos hex
    unfold syncSingleProduct
    dsimp only
    rw [if_pos hoos, if_pos hex]
    cases hresp : resp.error with
    | some err =>
      refine ⟨⟨createBatchItem
        { mapToMetaProduct env p parent "standard" with
            availability := "out of stock", inventory := some 0 } true,
        rfl, rfl, rfl, rfl⟩, ?_⟩
      intro habs
      exact Option.noConfusion habs
    | none =>
      refine ⟨⟨createBatchItem
        { mapToMetaProduct env p parent "standard" with
            availability := "out of stock", inventory := some 0 } true,
        rfl, rfl, rfl, rfl⟩, ?_⟩
      intro _
      simp
  · intro hoos hnex
    unfold syncSingleProduct
    dsimp only
    rw [if_pos hoos, if_neg (by rw [hnex]; simp)]
    exact ⟨rfl, rfl, rfl⟩
  · intro hin hch
    unfold syncSingleProduct
    dsimp only
    rw [if_neg (not_not_intro hin), if_pos (by rw [hch]; simp)]
    exact ⟨rfl, rfl, rfl, rfl⟩

/-- Witness for C2: the three cases evaluated on a concrete out-of-stock
product known remotely, a concrete out-of-stock product unknown remotely,
and a concrete unchanged in-stock product. -/
theorem syncSingleProduct_targeted_cases_witness :
    (∃ item, (syncSingleProduct testEnv
        { id := 50, stock_status := "outofstock", stock_quantity := some 0 } none
        (some { meta_product_exists := 1 }) false {}).batches = [[item]] ∧
      item.method = BatchMethod.UPDATE ∧
      item.data.availability = some "out of stock" ∧
      item.data.inventory = some 0) ∧
    StatusOp.markSynced "wc_50" "out of stock" (some 0) ∈
      (syncSingleProduct testEnv
        { id := 50, stock_status := "outofstock", stock_quantity := some 0 } none
        (some { meta_product_exists := 1 }) false {}).ops ∧
    (syncSingleProduct testEnv { id := 50, stock_status := "outofstock" } none
      none false {}).batches = [] ∧
    (syncSingleProduct testEnv { id := 50, stock_status := "outofstock" } none
      none false {}).lookups = [] ∧
    (syncSingleProduct testEnv
      { id := 51, stock_status := "instock", stock_quantity := some 4 } none
      (some { meta_product_exists := 1, last_availability := some "in stock",
              last_inventory := some 4 }) false {}).batches = [] ∧
    (syncSingleProduct testEnv
      { id := 51, stock_status := "instock", stock_quantity := some 4 } none
      (some { meta_product_exists := 1, last_availability := some "in stock",
              last_inventory := some 4 }) false {}).action = "skipped" := by
  have h1 := (syncSingleProduct_targeted_cases testEnv
    { id := 50, stock_status := "outofstock", stock_quantity := some 0 } none
    (some { meta_product_exists := 1 }) false {}).1 (by decide) (by decide)
  have h2 := (syncSingleProduct_targeted_cases testEnv
    { id := 50, stock_status := "outofstock" } none none false {}).2.1 (by decide) rfl
  have h3 := (syncSingleProduct_targeted_cases testEnv
    { id := 51, stock_status := "instock", stock_quantity := some 4 } none
    (some { meta_product_exists := 1, last_availability := some "in stock",
            last_inventory := some 4 }) false {}).2.2.1 rfl (by decide)
  exact ⟨h1.1, h1.2 rfl, h2.1, h2.2.1, h3.1, h3.2.2.1⟩

/-! ## C8 -/

/-- C8: no batch item is ever submitted with method DELETE.  Every item
built by `createBatchItem` or `updateProductStock` is CREATE or UPDATE;
every batch of the targeted path, the bulk path and the event processor's
variation branch contains only such items; and the product.deleted
handler issues only an out-of-stock inventory-0 UPDATE while deleting
solely the local product and sync-status rows. -/
theorem no_delete_method_ever :
    (∀ (q : MetaProduct) (ex : Bool), (createBatchItem q ex).method ≠ BatchMethod.DELETE) ∧
    (∀ (rid avail : String) (inv : Option Int),
      (updateStockItem rid avail inv).method ≠ BatchMethod.DELETE) ∧
    (∀ (env : MapEnv) (p : WCProduct) (parent : Option WCProduct) (st : Option SyncStatus)
      (ex : Bool) (resp : MetaBatchResponse) (style : String),
      ∀ batch ∈ (syncSingleProduct env p parent st ex resp style).batches,
        ∀ item ∈ batch, item.method ≠ BatchMethod.DELETE) ∧
    (∀ (env : MapEnv) (vf : Nat → List WCProduct) (catalog : List String)
      (products : List WCProduct),
      ∀ item ∈ initialSyncBatchItems env vf catalog products,
        item.method ≠ BatchMethod.DELETE) ∧
    (∀ (env : MapEnv) (p : WCProduct) (fp : Nat → Option WCProduct) (st : Option SyncStatus)
      (ex : Bool) (resp : MetaBatchResponse),
      ∀ batch ∈ (handleProductUpdatedVariationBranch env p fp st ex resp).batches,
        ∀ item ∈ batch, item.method ≠ BatchMethod.DELETE) ∧
    (∀ (p : WCProduct) (st : Option SyncStatus),
      ∀ batch ∈ (handleProductDeleted p st).batches, ∀ item ∈ batch,
        item.method = BatchMethod.UPDATE ∧
        item.data.availability = some "out of stock" ∧ item.data.inventory = some 0) ∧
    (∀ (p : WCProduct) (st : Option SyncStatus),
      (handleProductDeleted p st).localOps =
        [StatusOp.deleteProduct p.id, StatusOp.deleteSyncStatus p.id]) := by
  have hitem : ∀ (q : MetaProduct) (ex : Bool),
      (createBatchItem q ex).method ≠ BatchMethod.DELETE := by
    intro q ex
    rw [createBatchItem_method]
    cases ex <;> simp
  have hshape : ∀ (env : MapEnv) (p : WCProduct) (parent : Option WCProduct)
      (st : Option SyncStatus) (ex : Bool) (resp : MetaBatchResponse) (style : String),
      (syncSingleProduct env p parent st ex resp style).batches = [] ∨
      ∃ q e, (syncSingleProduct env p parent st ex resp style).batches =
        [[createBatchItem q e]] := by
    intro env p parent st ex resp style
    unfold syncSingleProduct
    dsimp only
    repeat' split
    all_goals first
      | exact Or.inl rfl
      | exact Or.inr ⟨_, _, rfl⟩
  have hsync : ∀ (env : MapEnv) (p : WCProduct) (parent : Option WCProduct)
      (st : Option SyncStatus) (ex : Bool) (resp : MetaBatchResponse) (style : String),
      ∀ batch ∈ (syncSingleProduct env p parent st ex resp style).batches,
        ∀ item ∈ batch, item.method ≠ BatchMethod.DELETE := by
    intro env p parent st ex resp style batch hb item hi
    rcases hshape env p parent st ex resp style with h | ⟨q, e, h⟩ <;> rw [h] at hb
    · exact absurd hb (List.not_mem_nil _)
    · rw [List.mem_singleton] at hb
      subst hb
      rw [List.mem_singleton] at hi
      subst hi
      exact hitem q e
  have hinit : ∀ (env : MapEnv) (vf : Nat → List WCProduct) (catalog : List String)
      (products : List WCProduct),
      ∀ item ∈ initialSyncBatchItems env vf catalog products,
        item.method ≠ BatchMethod.DELETE := by
    intro env vf catalog products item hmem
    unfold initialSyncBatchItems at hmem
    rw [List.mem_flatMap] at hmem
    obtain ⟨p, -, hmem⟩ := hmem
    unfold initialSyncEmit at hmem
    split at hmem
    · rw [List.mem_filterMap] at hmem
      obtain ⟨v0, -, hf⟩ := hmem
      dsimp only at hf
      split at hf
      · rw [Option.some_inj] at hf
        subst hf
        exact hitem _ _
      · exact absurd hf (by simp)
    · split at hmem
      · rw [List.mem_singleton] at hmem
        subst hmem
        exact hitem _ _
      · exact absurd hmem (List.not_mem_nil _)
  refine ⟨hitem, fun rid avail inv => by simp [updateStockItem], hsync, hinit, ?_, ?_, ?_⟩
  · intro env p fp st ex resp batch hb item hi
    unfold handleProductUpdatedVariationBranch at hb
    split at hb
    · exact hsync _ _ _ _ _ _ _ batch hb item hi
    · exact hsync _ _ _ _ _ _ _ batch hb item hi
  · intro p st batch hb item hi
    unfold handleProductDeleted at hb
    dsimp only at hb
    split at hb
    · rw [List.mem_singleton] at hb
      subst hb
      rw [List.mem_singleton] at hi
      subst hi
      exact ⟨rfl, rfl, rfl⟩
    · exact absurd hb (List.not_mem_nil _)
  · intro p st
    rfl

/-- Witness for C8: evaluated on concrete items, a concrete deleted
product known remotely, and the membership hypotheses discharged by
computation. -/
theorem no_delete_method_ever_witness :
    (createBatchItem { id := "wc_60" } false).method ≠ BatchMethod.DELETE ∧
    (updateStockItem "wc_60" "out of stock" (some 0)).method ≠ BatchMethod.DELETE ∧
    (handleProductDeleted { id := 61 } (some { meta_product_exists := 1 })).localOps =
      [StatusOp.deleteProduct 61, StatusOp.deleteSyncStatus 61] ∧
    ((updateStockItem "wc_61" "out of stock" (some 0)).method = BatchMethod.UPDATE ∧
      (updateStockItem "wc_61" "out of stock" (some 0)).data.availability =
        some "out of stock" ∧
      (updateStockItem "wc_61" "out of stock" (some 0)).data.inventory = some 0) :=
  ⟨no_delete_method_ever.1 { id := "wc_60" } false,
   no_delete_method_ever.2.1 "wc_60" "out of stock" (some 0),
   no_delete_method_ever.2.2.2.2.2.2 { id := 61 } (some { meta_product_exists := 1 }),
   no_delete_method_ever.2.2.2.2.2.1 { id := 61 } (some { meta_product_exists := 1 })
     [updateStockItem "wc_61" "out of stock" (some 0)] (by decide)
     (updateStockItem "wc_61" "out of stock" (some 0)) (by decide)⟩

/-! ## C3 -/

/-- Counterexample for C3: an in-stock variable product whose variation
list is empty falls into the simple-product branch of the bulk path and
contributes one batch item with retailer-id `wc_<id>_main` — the variable
parent is emitted, and a variable product with 0 in-stock variations
contributes a batch item. -/
theorem bulk_sync_emits_parent_for_empty_variation_list :
    (initialSyncBatchItems testEnv (fun _ => []) []
      [{ id := 9, ptype := "variable", stock_status := "instock", variations := [] }]).map
      (fun item => item.retailer_id) = ["wc_9_main"] := by
  decide

/-- C3 (amended): for every variable product with a non-empty variation
list, the bulk path emits exactly one batch item per in-stock fetched
variation, every emitted item carries the variation's `wc_<id>` retailer
id and never any `wc_<m>_main` id (so the parent is never emitted), and
with no in-stock variation nothing is emitted.  A variable product whose
variation list is empty is instead handled by the simple branch and, when
in stock, is emitted under `wc_<id>_main`. -/
theorem bulk_sync_variable_emission (env : MapEnv) (vf : Nat → List WCProduct)
    (catalog : List String) (p : WCProduct) (hvar : p.ptype = "variable")
    (hne : p.variations ≠ []) :
    (∀ item ∈ initialSyncEmit env vf catalog p, ∃ v ∈ vf p.id,
      v.stock_status = "instock" ∧ item.retailer_id = "wc_" ++ Nat.repr v.id) ∧
    (initialSyncEmit env vf catalog p).length =
      ((vf p.id).filter (fun v => v.stock_status == "instock")).length ∧
    (∀ item ∈ initialSyncEmit env vf catalog p, ∀ m : Nat,
      item.retailer_id ≠ "wc_" ++ Nat.repr m ++ "_main") ∧
    ((∀ v ∈ vf p.id, v.stock_status ≠ "instock") →
      initialSyncEmit env vf catalog p = []) := by
  have hcond : p.ptype = "variable" ∧ p.variations.length > 0 :=
    ⟨hvar, List.length_pos.mpr hne⟩
  have hemit : initialSyncEmit env vf catalog p = (vf p.id).filterMap (fun v0 =>
      let v := { v0 with parent_id := p.id, ptype := "variation" }
      if v.stock_status = "instock" then
        some (createBatchItem (mapToMetaProduct env v (some p))
          (catalog.contains (generateMetaRetailerId v (some p))))
      else none) := by
    unfold initialSyncEmit
    rw [if_pos hcond]
  have hmem : ∀ item ∈ initialSyncEmit env vf catalog p, ∃ v ∈ vf p.id,
      v.stock_status = "instock" ∧ item.retailer_id = "wc_" ++ Nat.repr v.id := by
    intro item hm
    rw [hemit, List.mem_filterMap] at hm
    obtain ⟨v0, hv0, hf⟩ := hm
    dsimp only at hf
    by_cases hs : v0.stock_status = "instock"
    · rw [if_pos hs] at hf
      rw [Option.some_inj] at hf
      refine ⟨v0, hv0, hs, ?_⟩
      subst hf
      rw [createBatchItem_retailer_id, mapToMetaProduct_id, generateMetaRetailerId_with_parent]
    · rw [if_neg hs] at hf
      exact absurd hf (by simp)
  refine ⟨hmem, ?_, ?_, ?_⟩
  · rw [hemit]
    induction vf p.id with
    | nil => rfl
    | cons hd tl ih =>
      rw [List.filterMap_cons, List.filter_cons]
      dsimp only
      by_cases hs : hd.stock_status = "instock"
      · rw [if_pos hs, if_pos (beq_iff_eq.mpr hs)]
        dsimp only
        rw [List.length_cons, List.length_cons, ih]
      · rw [if_neg hs, if_neg (by simp [hs])]
        dsimp only
        exact ih
  · intro item hm m
    obtain ⟨v, -, -, hrid⟩ := hmem item hm
    rw [hrid]
    exact wc_plain_ne_wc_main v.id m
  · intro hall
    rw [hemit, List.filterMap_eq_nil_iff]
    intro v0 hv0
    dsimp only
    have hns : ¬ ({ v0 with parent_id := p.id, ptype := "variation" } :
        WCProduct).stock_status = "instock" := hall v0 hv0
    rw [if_neg hns]

/-- Witness for C3 (amended): evaluated on the concrete sample parent
with one in-stock and one out-of-stock variation, and on the sample
oracle with no in-stock variation. -/
theorem bulk_sync_variable_emission_witness :
    (initialSyncEmit testEnv sampleVariations [] sampleParent).length =
      ((sampleVariations 100).filter (fun v => v.stock_status == "instock")).length ∧
    sampleVariationItem.retailer_id ≠ "wc_" ++ Nat.repr 100 ++ "_main" ∧
    initialSyncEmit testEnv sampleVariationsAllOut [] sampleParent = [] :=
  ⟨(bulk_sync_variable_emission testEnv sampleVariations [] sampleParent rfl
      (by decide)).2.1,
   (bulk_sync_variable_emission testEnv sampleVariations [] sampleParent rfl
      (by decide)).2.2.1 sampleVariationItem
      (by
        have h : initialSyncEmit testEnv sampleVariations [] sampleParent =
            [sampleVariationItem] := rfl
        rw [h]
        exact List.mem_singleton_self _) 100,
   (bulk_sync_variable_emission testEnv sampleVariationsAllOut [] sampleParent rfl
      (by decide)).2.2.2 (by decide)⟩

/-! ## C4 -/

/-- Counterexample for C4: on a batch response with a top-level error,
the bulk engine (`performInitialSync` step 6) only advances the error
counter — it performs no sync-status write at all, so the chunk's item is
not marked error in sync-status as claimed. -/
theorem bulk_chunk_error_writes_no_status :
    processChunkInitial [updateStockItem "wc_42" "in stock" (some 5)] (fun _ => some 42)
      { error := some { message := "fail" } } = ({ errors := 1 }, []) := by
  decide

/-- C4 (amended): a top-level error makes the initial-sync engine count
every item of the chunk as an error while writing nothing to sync-status
(rows keep their prior state); only `batchSyncProducts` marks every item
of the chunk as error in sync-status.  With a validation-status array,
each item with validation errors is marked error and every other item is
marked synced with its availability and inventory stamped; with neither
validation-status nor error, every item is marked synced. -/
theorem chunk_response_interpretation :
    (∀ (chunk : List MetaBatchItem) (pm : String → Option Nat) (resp : MetaBatchResponse)
      (e : MetaError), resp.error = some e →
      processChunkInitial chunk pm resp = ({ errors := chunk.length }, [])) ∧
    (∀ (items : List MetaBatchItem) (pm2 : String → Option (MetaProduct × Bool))
      (resp : MetaBatchResponse) (e : MetaError), resp.error = some e →
      (processChunkCatalog items pm2 resp).2 =
        items.map (fun i => StatusOp.markError i.retailer_id e.message)) ∧
    (∀ (chunk : List MetaBatchItem) (pm : String → Option Nat) (resp : MetaBatchResponse)
      (vs : List ValidationStatus), resp.error = none →
      resp.validation_status = some vs →
      ∀ item ∈ chunk, ∀ pid, pm item.retailer_id = some pid → pid ≠ 0 →
        (∀ msg, findValidationError (some vs) item.retailer_id = some msg →
          StatusOp.upsertStatus pid item.retailer_id "error" none (some msg) ∈
            (processChunkInitial chunk pm resp).2) ∧
        (findValidationError (some vs) item.retailer_id = none →
          StatusOp.markSynced item.retailer_id (item.data.availability.getD "in stock")
            item.data.inventory ∈ (processChunkInitial chunk pm resp).2)) ∧
    (∀ (chunk : List MetaBatchItem) (pm : String → Option Nat) (resp : MetaBatchResponse),
      resp.error = none → resp.validation_status = none →
      ∀ item ∈ chunk, ∀ pid, pm item.retailer_id = some pid → pid ≠ 0 →
        StatusOp.markSynced item.retailer_id (item.data.availability.getD "in stock")
          item.data.inventory ∈ (processChunkInitial chunk pm resp).2) := by
  refine ⟨?_, ?_, ?_, ?_⟩
  · intro chunk pm resp e herr
    unfold processChunkInitial
    rw [herr]
  · intro items pm2 resp e herr
    unfold processChunkCatalog
    rw [herr]
  · intro chunk pm resp vs herr hvs item hitem pid hpm hpid
    constructor
    · intro msg hmsg
      unfold processChunkInitial
      rw [herr, hvs]
      dsimp only
      rw [List.mem_filterMap]
      refine ⟨item, hitem, ?_⟩
      dsimp only
      rw [hmsg]
      unfold gatedOp
      rw [hpm]
      dsimp only
      rw [if_neg hpid]
    · intro hnone
      unfold processChunkInitial
      rw [herr, hvs]
      dsimp only
      rw [List.mem_filterMap]
      refine ⟨item, hitem, ?_⟩
      dsimp only
      rw [hnone]
      unfold gatedOp
      rw [hpm]
      dsimp only
      rw [if_neg hpid]
  · intro chunk pm resp herr hvs item hitem pid hpm hpid
    unfold processChunkInitial
    rw [herr, hvs]
    dsimp only
    rw [List.mem_filterMap]
    refine ⟨item, hitem, ?_⟩
    unfold gatedOp
    rw [hpm]
    dsimp only
    rw [if_neg hpid]

/-- Witness for C4 (amended): the four branches evaluated on concrete
one-item chunks. -/
theorem chunk_response_interpretation_witness :
    processChunkInitial [updateStockItem "wc_77" "in stock" (some 2)] (fun _ => some 77)
      { error := some { message := "down" } } = ({ errors := 1 }, []) ∧
    (processChunkCatalog [updateStockItem "wc_77" "in stock" (some 2)] (fun _ => none)
      { error := some { message := "down" } }).2 = [StatusOp.markError "wc_77" "down"] ∧
    StatusOp.upsertStatus 77 "wc_77" "error" none (some "bad") ∈
      (processChunkInitial [updateStockItem "wc_77" "in stock" (some 2)] (fun _ => some 77)
        { validation_status :=
            some [{ retailer_id := "wc_77", errors := [{ message := "bad" }] }] }).2 ∧
    StatusOp.markSynced "wc_78" "in stock" (some 2) ∈
      (processChunkInitial [updateStockItem "wc_78" "in stock" (some 2)] (fun _ => some 78)
        {}).2 :=
  ⟨chunk_response_interpretation.1 [updateStockItem "wc_77" "in stock" (some 2)]
      (fun _ => some 77) { error := some { message := "down" } } { message := "down" } rfl,
   chunk_response_interpretation.2.1 [updateStockItem "wc_77" "in stock" (some 2)]
      (fun _ => none) { error := some { message := "down" } } { message := "down" } rfl,
   ((chunk_response_interpretation.2.2.1 [updateStockItem "wc_77" "in stock" (some 2)]
      (fun _ => some 77)
      { validation_status :=
          some [{ retailer_id := "wc_77", errors := [{ message := "bad" }] }] }
      [{ retailer_id := "wc_77", errors := [{ message := "bad" }] }] rfl rfl
      (updateStockItem "wc_77" "in stock" (some 2)) (by decide) 77 rfl
      (by decide)).1 "bad" (by decide)),
   chunk_response_interpretation.2.2.2 [updateStockItem "wc_78" "in stock" (some 2)]
      (fun _ => some 78) {} rfl rfl (updateStockItem "wc_78" "in stock" (some 2))
      (by decide) 78 rfl (by decide)⟩

/-! ## C5 -/

/-- C5: the webhook endpoint validates fail-fast in order — missing
topic rejects 400; mismatched source hostname rejects 403; a signature
different from the base64 HMAC-SHA-256 of the raw body under the shared
secret rejects 401; a non-JSON body rejects 400 — and every rejected
request inserts no event record and dispatches nothing to the processor
(hence no batch request is issued). -/
theorem webhook_validation_pipeline (hmacB64 : String → String → String)
    (hostOf : String → Option String) (parseBody : String → Option WCProduct)
    (secret wcApiUrl : Option String) (req : WebhookRequest) :
    (req.topic = none →
      handleWebhook hmacB64 hostOf parseBody secret wcApiUrl req = { status := 400 }) ∧
    (∀ t s api h1 h2, req.topic = some t → req.source = some s → wcApiUrl = some api →
      hostOf s = some h1 → hostOf api = some h2 → h1 ≠ h2 →
      handleWebhook hmacB64 hostOf parseBody secret wcApiUrl req = { status := 403 }) ∧
    (∀ t sig sec, req.topic = some t →
      isValidSource hostOf wcApiUrl req.source = true →
      req.signature = some sig → secret = some sec → sig ≠ hmacB64 sec req.body →
      handleWebhook hmacB64 hostOf parseBody secret wcApiUrl req = { status := 401 }) ∧
    (∀ t, req.topic = some t →
      isValidSource hostOf wcApiUrl req.source = true →
      validateWebhookSignature hmacB64 secret req.body req.signature = true →
      parseBody req.body = none →
      handleWebhook hmacB64 hostOf parseBody secret wcApiUrl req = { status := 400 }) ∧
    ((handleWebhook hmacB64 hostOf parseBody secret wcApiUrl req).status ≠ 200 →
      (handleWebhook hmacB64 hostOf parseBody secret wcApiUrl req).events = [] ∧
      (handleWebhook hmacB64 hostOf parseBody secret wcApiUrl req).dispatched = false) := by
  have hsplit : (handleWebhook hmacB64 hostOf parseBody secret wcApiUrl req).status = 200 ∨
      ((handleWebhook hmacB64 hostOf parseBody secret wcApiUrl req).events = [] ∧
       (handleWebhook hmacB64 hostOf parseBody secret wcApiUrl req).dispatched = false) := by
    unfold handleWebhook
    cases htop : req.topic with
    | none => exact Or.inr ⟨rfl, rfl⟩
    | some t =>
      dsimp only
      by_cases hvs : isValidSource hostOf wcApiUrl req.source = true
      · rw [if_neg (not_not_intro hvs)]
        by_cases hsig : validateWebhookSignature hmacB64 secret req.body req.signature = true
        · rw [if_neg (not_not_intro hsig)]
          cases hpb : parseBody req.body with
          | none => exact Or.inr ⟨rfl, rfl⟩
          | some prod => exact Or.inl rfl
        · rw [if_pos hsig]
          exact Or.inr ⟨rfl, rfl⟩
      · rw [if_pos hvs]
        exact Or.inr ⟨rfl, rfl⟩
  refine ⟨?_, ?_, ?_, ?_, ?_⟩
  · intro ht
    unfold handleWebhook
    rw [ht]
  · intro t s api h1 h2 ht hs hapi hh1 hh2 hne
    have hiv : isValidSource hostOf wcApiUrl req.source = false := by
      unfold isValidSource
      rw [hs, hapi]
      dsimp only
      rw [hh1, hh2]
      exact beq_eq_false_iff_ne.mpr hne
    unfold handleWebhook
    rw [ht]
    dsimp only
    rw [if_pos (by rw [hiv]; simp)]
  · intro t sig sec ht hvalid hsig hsec hne
    have hv : validateWebhookSignature hmacB64 secret req.body req.signature = false := by
      unfold validateWebhookSignature
      rw [hsig, hsec]
      exact beq_eq_false_iff_ne.mpr hne
    unfold handleWebhook
    rw [ht]
    dsimp only
    rw [if_neg (not_not_intro hvalid), if_pos (by rw [hv]; simp)]
  · intro t ht hvalid hsigv hparse
    unfold handleWebhook
    rw [ht]
    dsimp only
    rw [if_neg (not_not_intro hvalid), if_neg (not_not_intro hsigv), hparse]
  · intro hstatus
    rcases hsplit with h200 | hrest
    · exact absurd h200 hstatus
    · exact hrest

/-- Witness for C5: the four rejections and the no-side-effect guarantee
evaluated on concrete requests, with the HMAC oracle instantiated by
concatenation and the URL-hostname oracle by the identity. -/
theorem webhook_validation_pipeline_witness :
    handleWebhook (fun sec payload => sec ++ payload) (fun u => some u) (fun _ => none)
      (some "sec") (some "shop.example") { topic := none } = { status := 400 } ∧
    handleWebhook (fun sec payload => sec ++ payload) (fun u => some u) (fun _ => none)
      (some "sec") (some "shop.example")
      { topic := some "product.updated", source := some "evil.example", body := "x" } =
      { status := 403 } ∧
    handleWebhook (fun sec payload => sec ++ payload) (fun u => some u) (fun _ => none)
      (some "sec") (some "shop.example")
      { topic := some "product.updated", source := some "shop.example",
        signature := some "zzz", body := "x" } = { status := 401 } ∧
    handleWebhook (fun sec payload => sec ++ payload) (fun u => some u) (fun _ => none)
      (some "sec") (some "shop.example")
      { topic := some "product.updated", source := some "shop.example",
        signature := some "secx", body := "x" } = { status := 400 } ∧
    (handleWebhook (fun sec payload => sec ++ payload) (fun u => some u) (fun _ => none)
      (some "sec") (some "shop.example")
      { topic := some "product.updated", source := some "shop.example",
        signature := some "zzz", body := "x" }).events = [] ∧
    (handleWebhook (fun sec payload => sec ++ payload) (fun u => some u) (fun _ => none)
      (some "sec") (some "shop.example")
      { topic := some "product.updated", source := some "shop.example",
        signature := some "zzz", body := "x" }).dispatched = false := by
  have h1 := (webhook_validation_pipeline (fun sec payload => sec ++ payload)
    (fun u => some u) (fun _ => none) (some "sec") (some "shop.example")
    { topic := none }).1 rfl
  have h2 := (webhook_validation_pipeline (fun sec payload => sec ++ payload)
    (fun u => some u) (fun _ => none) (some "sec") (some "shop.example")
    { topic := some "product.updated", source := some "evil.example", body := "x" }).2.1
    "product.updated" "evil.example" "shop.example" "evil.example" "shop.example"
    rfl rfl rfl rfl rfl (by decide)
  have h3 := (webhook_validation_pipeline (fun sec payload => sec ++ payload)
    (fun u => some u) (fun _ => none) (some "sec") (some "shop.example")
    { topic := some "product.updated", source := some "shop.example",
      signature := some "zzz", body := "x" }).2.2.1
    "product.updated" "zzz" "sec" rfl (by decide) rfl rfl (by decide)
  have h4 := (webhook_validation_pipeline (fun sec payload => sec ++ payload)
    (fun u => some u) (fun _ => none) (some "sec") (some "shop.example")
    { topic := some "product.updated", source := some "shop.example",
      signature := some "secx", body := "x" }).2.2.2.1
    "product.updated" rfl (by decide) (by decide) rfl
  have h5 := (webhook_validation_pipeline (fun sec payload => sec ++ payload)
    (fun u => some u) (fun _ => none) (some "sec") (some "shop.example")
    { topic := some "product.updated", source := some "shop.example",
      signature := some "zzz", body := "x" }).2.2.2.2 (by decide)
  exact ⟨h1, h2, h3, h4, h5.1, h5.2⟩

end CtxGen
